import Mathlib

/-!
Verification of the DeSC-Nalmefene cohort-extraction and treatment-classification
pipeline (`scripts/preprocessing/python/extract_f10_2_patients.py` and
`scripts/preprocessing/python/create_analysis_dataset.py`).

The Python code operates on polars DataFrames.  The shallow embedding models a
DataFrame as a Lean list of records (one structure per archive family), a
polars `filter` as `List.filter`, `sort` as `List.insertionSort`, `group_by`
followed by per-group aggregation as deduplicated keys paired with
aggregations over the rows carrying that key (polars preserves within-group
row order, which is all the aggregations below depend on), joins as
list-comprehension style matching on the join keys, and each `logger.warning`
call as an element of an explicit warning list returned next to the data.

Dates travel through the pipeline as strings.  polars compares Utf8 columns
bytewise, which for the ASCII date strings used here is exactly the
lexicographic order on the character lists, i.e. Mathlib's `List.Lex` order on
`String.data`.  `str.to_date(format="%Y/%m/%d")` is modelled by
`parseYmdSlash`, which accepts exactly the fixed-width `YYYY/MM/DD` layout the
repository's schema documents for the `*_ymd` columns
(`process_desc_data.py`: "スキーマでは YYYY/MM/DD の char 型").  Parsed dates
are represented by their day number (`toDayNumber`, a proleptic-Gregorian day
count), so that polars date comparisons become `Nat` comparisons and
`dt.offset_by("Nw")` becomes `+ 7*N` days.  Identifier columns that the source
casts between integer and string representations (`kojin_id`, `receipt_id`,
`line_no`) are modelled with a single `Nat` type, so the casts are identities.
-/

/-- A calendar date, as produced by parsing a `YYYY/MM/DD` string. -/
structure Date where
  year : Nat
  month : Nat
  day : Nat
deriving DecidableEq, Repr

/-- Gregorian leap-year test. -/
def isLeap (y : Nat) : Bool :=
  (y % 4 == 0 && y % 100 != 0) || y % 400 == 0

/-- Lengths of the twelve months. -/
def monthLengths (leap : Bool) : List Nat :=
  [31, if leap then 29 else 28, 31, 30, 31, 30, 31, 31, 30, 31, 30, 31]

/-- Days strictly before month `m` (1-based) in a year of the given kind. -/
def daysBeforeMonth (leap : Bool) (m : Nat) : Nat :=
  ((monthLengths leap).take (m - 1)).foldl (· + ·) 0

/-- Proleptic-Gregorian day number of a date (day 1 = 0001-01-01).  Used to
model polars `Date` values: comparisons on polars dates are comparisons of
day numbers, and `dt.offset_by` with a week count adds `7 * weeks` days. -/
def toDayNumber (dt : Date) : Nat :=
  365 * (dt.year - 1) + (dt.year - 1) / 4 - (dt.year - 1) / 100 + (dt.year - 1) / 400
    + daysBeforeMonth (isLeap dt.year) dt.month + dt.day

/-- Numeric value of an ASCII digit character. -/
def digitVal (c : Char) : Option Nat :=
  if 48 ≤ c.toNat ∧ c.toNat ≤ 57 then some (c.toNat - 48) else none

/-- polars `str.to_date(format="%Y/%m/%d")` on the fixed-width `YYYY/MM/DD`
strings documented for the DeSC `*_ymd` columns.  Any other shape fails, which
in strict polars raises an error in the calling expression. -/
def parseYmdSlash (s : String) : Option Date :=
  match s.data with
  | [y1, y2, y3, y4, c1, m1, m2, c2, d1, d2] =>
    if c1 = '/' ∧ c2 = '/' then
      match digitVal y1, digitVal y2, digitVal y3, digitVal y4,
            digitVal m1, digitVal m2, digitVal d1, digitVal d2 with
      | some a1, some a2, some a3, some a4, some b1, some b2, some e1, some e2 =>
        some ⟨a1 * 1000 + a2 * 100 + a3 * 10 + a4, b1 * 10 + b2, e1 * 10 + e2⟩
      | _, _, _, _, _, _, _, _ => none
    else none
  | _ => none

/-- polars bytewise Utf8 `<=` between two strings (lexicographic on the
character lists; identical to byte order for the ASCII data handled here). -/
def strLe (a b : String) : Bool := decide (a.data ≤ b.data)

/-- One row of a `receipt_diseases_*.feather` archive after the column
projection performed by `extract_f10_2_patients`. -/
structure DiseaseRow where
  kojin_id : Nat
  receipt_id : Nat
  receipt_ym : String
  diseases_code : String
  sinryo_start_ymd : String
  shubyomei_flg : String
  tenki_kbn_code : String
  utagai_flg : String
deriving DecidableEq, Repr

/-- One row of the per-patient index-date table built by
`extract_f10_2_patients` (the `group_by("kojin_id").agg(...)` output). -/
structure IndexEntry where
  kojin_id : Nat
  index_date : String
  first_receipt_id : Nat
  first_receipt_ym : String
  first_diseases_code : String
  first_shubyomei_flg : String
  first_tenki_kbn_code : String
  first_utagai_flg : String
  total_f10_2_records : Nat
deriving DecidableEq, Repr

/-- Sort key of `patients_df.sort(["kojin_id", "sinryo_start_ymd", "receipt_ym"])`:
the lexicographic triple of patient id, event-date string and period string. -/
def rowKeyOf (r : DiseaseRow) : Nat ×ₗ (List Char ×ₗ List Char) :=
  toLex (r.kojin_id, toLex (r.sinryo_start_ymd.data, r.receipt_ym.data))

/-- Row ordering realised by the three-column polars sort. -/
def rowLe (a b : DiseaseRow) : Prop := rowKeyOf a ≤ rowKeyOf b

instance : DecidableRel rowLe :=
  fun a b => inferInstanceAs (Decidable (rowKeyOf a ≤ rowKeyOf b))

instance : IsTotal DiseaseRow rowLe :=
  ⟨fun a b => le_total (rowKeyOf a) (rowKeyOf b)⟩

instance : IsTrans DiseaseRow rowLe :=
  ⟨fun _ _ _ h1 h2 => le_trans h1 h2⟩

/-- The single three-column sort `patients_df.sort(["kojin_id",
"sinryo_start_ymd", "receipt_ym"])`. -/
def sortDiseaseRows (rows : List DiseaseRow) : List DiseaseRow :=
  List.insertionSort rowLe rows

/-- The rows of one patient's group, in post-sort order (polars `group_by`
keeps within-group row order). -/
def extractGroup (rows : List DiseaseRow) (pid : Nat) : List DiseaseRow :=
  (sortDiseaseRows rows).filter (fun r => r.kojin_id == pid)

/-- The `agg` of the `group_by("kojin_id")`: every `first()` comes from the
first row of the sorted group, `pl.count()` is the group size. -/
def indexEntryFor (rows : List DiseaseRow) (pid : Nat) : Option IndexEntry :=
  match extractGroup rows pid with
  | [] => none
  | r :: rest =>
    some { kojin_id := pid
           index_date := r.sinryo_start_ymd
           first_receipt_id := r.receipt_id
           first_receipt_ym := r.receipt_ym
           first_diseases_code := r.diseases_code
           first_shubyomei_flg := r.shubyomei_flg
           first_tenki_kbn_code := r.tenki_kbn_code
           first_utagai_flg := r.utagai_flg
           total_f10_2_records := (r :: rest).length }

/-- `sort` + `group_by("kojin_id")` + `agg(first..., count)`: one entry per
distinct patient id occurring in the concatenated rows. -/
def indexDates (rows : List DiseaseRow) : List IndexEntry :=
  (((sortDiseaseRows rows).map (fun r => r.kojin_id)).dedup).filterMap (indexEntryFor rows)

/-- `Config.STUDY_PERIOD_START` of `extract_f10_2_patients.py`. -/
def STUDY_PERIOD_START : String := "2014-04-01"

/-- `Config.STUDY_PERIOD_END` of `extract_f10_2_patients.py`. -/
def STUDY_PERIOD_END : String := "2023-09-30"

/-- The second filter pass after grouping:
`index_dates.filter((col("index_date") >= START) & (col("index_date") <= END))`.
`index_date` is a Utf8 column, so polars compares the strings bytewise. -/
def studyPeriodFilter (entries : List IndexEntry) : List IndexEntry :=
  entries.filter (fun e => strLe STUDY_PERIOD_START e.index_date && strLe e.index_date STUDY_PERIOD_END)

/-- The resource parameters computed by `optimize_parameters`. -/
structure Params where
  n_threads : Nat
  chunk_size : Nat
  batch_size : Nat
deriving DecidableEq, Repr

/-- Per-archive scan of `extract_f10_2_patients`:
`scan_ipc(source, n_rows=chunk_size).filter(diseases_code.is_in(codes)).select([...])`.
`n_rows` caps the rows read from the archive before the code filter runs. -/
def scanDiseaseFile (codes : List String) (cap : Nat) (rows : List DiseaseRow) : List DiseaseRow :=
  (rows.take cap).filter (fun r => codes.contains r.diseases_code)

/-- Warning text logged when no archive produced any match (the only
`logger.warning` call in `extract_f10_2_patients`). -/
def WARN_NO_F10_2_PATIENTS : String := "F10.2 patients not found"

/-- `extract_f10_2_patients(disease_files, f10_2_diseases_codes, params)`:
per-archive capped scans, concatenation of the non-empty results, the
sort/group/first index-date resolution, then the study-period filter.  The
second component collects the `logger.warning` messages the function can emit
(info-level logging is not modelled). -/
def extract_f10_2_patients (disease_files : List (List DiseaseRow)) (codes : List String)
    (params : Params) : List IndexEntry × List String :=
  let results := (disease_files.map (scanDiseaseFile codes params.chunk_size)).filter
    (fun r => !r.isEmpty)
  if results.isEmpty then ([], [WARN_NO_F10_2_PATIENTS])
  else (studyPeriodFilter (indexDates results.flatten), [])

/-- Day number of `pl.date(2014, 4, 1)`, the study-period start used by the
washout filter. -/
def studyStartDay : Nat := toDayNumber ⟨2014, 4, 1⟩

/-- The washout predicate
`index_date_parsed >= pl.date(2014, 4, 1).dt.offset_by(f"{washout_weeks}w")`. -/
def washoutKeep (washout_weeks : Nat) (dt : Date) : Bool :=
  decide (studyStartDay + 7 * washout_weeks ≤ toDayNumber dt)

/-- `apply_washout_criteria(patients_df, washout_weeks)`: adds the parsed
helper column `index_date_parsed` (strict `str.to_date(format="%Y/%m/%d")`, so
a single malformed date raises and no frame is returned — modelled by `none`),
filters on the washout predicate, and drops the helper column again. -/
def apply_washout_criteria (patients : List IndexEntry) (washout_weeks : Nat) :
    Option (List IndexEntry) :=
  let withParsed := patients.map (fun p => (p, parseYmdSlash p.index_date))
  if withParsed.all (fun q => q.2.isSome) then
    some ((withParsed.filter (fun q =>
      match q.2 with
      | some dt => washoutKeep washout_weeks dt
      | none => false)).map Prod.fst)
  else none

/-- `save_results(patients_df, output_dir)`: the four cohort frames written to
disk — 52-week primary, 26-week sensitivity 1, 156-week sensitivity 2, and the
unfiltered full set — each computed from the same full input frame. -/
def save_results (patients : List IndexEntry) :
    Option (List IndexEntry) × Option (List IndexEntry) × Option (List IndexEntry) × List IndexEntry :=
  (apply_washout_criteria patients 52,
   apply_washout_criteria patients 26,
   apply_washout_criteria patients 156,
   patients)

/-- A patient row as handed to `classify_treatment_groups`: the classifier
reads only `kojin_id` and `index_date` from it (all other columns ride along
unchanged through its left join). -/
structure CohortPatient where
  kojin_id : Nat
  index_date : String
deriving DecidableEq, Repr

/-- One row of a `receipt_drug_*.feather` archive after the projection
`select(["kojin_id", "receipt_id", "line_no", "drug_code"])`. -/
structure DrugRow where
  kojin_id : Nat
  receipt_id : Nat
  line_no : Nat
  drug_code : Nat
deriving DecidableEq, Repr

/-- One row of a `receipt_drug_santei_ymd_*.feather` archive (before the
projection down to `["receipt_id", "line_no", "shohou_ymd"]`; `kojin_id` is
used for the patient filter and then dropped). -/
structure SanteiRow where
  kojin_id : Nat
  receipt_id : Nat
  line_no : Nat
  shohou_ymd : String
deriving DecidableEq, Repr

/-- One event/date archive pair of `classify_treatment_groups`.  `yyyymm` is
the `get_yyyymm_from_filename` sort key (0 for unparseable names); `santei` is
`none` when the matching `receipt_drug_santei_ymd_*` file does not exist. -/
structure DrugFilePair where
  yyyymm : Nat
  drug_rows : List DrugRow
  santei : Option (List SanteiRow)
deriving DecidableEq, Repr

/-- A row of `df_with_index`: drug event joined with its dispensing date and
the patient's index date. -/
structure MergedRow where
  kojin_id : Nat
  drug_code : Nat
  shohou_ymd : String
  index_date : String
deriving DecidableEq, Repr

/-- One row of a per-file `group_by("kojin_id").agg(...)` treatment aggregate. -/
structure TreatmentAgg where
  kojin_id : Nat
  has_reduction : Bool
  has_abstinence : Bool
  first_drug_date : Option Nat
deriving DecidableEq, Repr

/-- `Config.DRUG_CODES` of `create_analysis_dataset.py` (numeric receipt
codes): nalmefene alone forms the reduction class. -/
def reduction_codes : List Nat := [622607601]

/-- `Config.DRUG_CODES`: acamprosate, disulfiram and cyanamide form the
abstinence class. -/
def abstinence_codes : List Nat := [622243701, 620008676, 621320701]

/-- The post-index retention window test
`(shohou_ymd >= index_date) & (shohou_ymd <= index_date.dt.offset_by("52w"))`
on parsed dates, as day numbers; `"52w"` adds exactly `7 * 52 = 364` days. -/
def inTreatmentWindow (indexDay shohouDay : Nat) : Bool :=
  decide (indexDay ≤ shohouDay) && decide (shohouDay ≤ indexDay + 7 * 52)

/-- Window filter on a joined row: both date strings are parsed strictly (a
parse failure raises, handled one level up) and compared as dates. -/
def windowKeep (r : MergedRow) : Bool :=
  match parseYmdSlash r.shohou_ymd, parseYmdSlash r.index_date with
  | some s, some i => inTreatmentWindow (toDayNumber i) (toDayNumber s)
  | _, _ => false

/-- Per-file `group_by("kojin_id").agg(max(is_reduction), max(is_abstinence),
min(shohou_ymd))`: within one archive pair the flags are ORs over the
patient's retained rows. -/
def groupTreatment (rows : List MergedRow) : List TreatmentAgg :=
  ((rows.map (fun r => r.kojin_id)).dedup).map (fun pid =>
    let g := rows.filter (fun r => r.kojin_id == pid)
    { kojin_id := pid
      has_reduction := g.any (fun r => reduction_codes.contains r.drug_code)
      has_abstinence := g.any (fun r => abstinence_codes.contains r.drug_code)
      first_drug_date := ((g.filterMap (fun r => (parseYmdSlash r.shohou_ymd).map toDayNumber)).min?) })

/-- The body of the per-archive-pair loop of `classify_treatment_groups`.
`none` models every `continue`: no event rows for the cohort, missing date
archive, empty inner join, a raised date-parse error (caught by the
`except` clause), or an empty window filter result. -/
def processDrugFile (pids : List Nat) (patients : List CohortPatient) (pair : DrugFilePair) :
    Option (List TreatmentAgg) :=
  let df_drug := pair.drug_rows.filter (fun r => pids.contains r.kojin_id)
  if df_drug.isEmpty then none
  else
    match pair.santei with
    | none => none
    | some santeiRows =>
      let df_santei := (santeiRows.filter (fun r => pids.contains r.kojin_id)).map
        (fun r => (r.receipt_id, r.line_no, r.shohou_ymd))
      let df_merged := (df_drug.map (fun d =>
        (df_santei.filter (fun s => s.1 == d.receipt_id && s.2.1 == d.line_no)).map
          (fun s => (d, s.2.2)))).flatten
      if df_merged.isEmpty then none
      else
        let df_with_index := (df_merged.map (fun m =>
          (patients.filter (fun p => p.kojin_id == m.1.kojin_id)).map
            (fun p => ({ kojin_id := m.1.kojin_id
                         drug_code := m.1.drug_code
                         shohou_ymd := m.2
                         index_date := p.index_date } : MergedRow)))).flatten
        if df_with_index.all (fun r => (parseYmdSlash r.shohou_ymd).isSome
            && (parseYmdSlash r.index_date).isSome) then
          let df_filtered := df_with_index.filter windowKeep
          if df_filtered.isEmpty then none
          else some (groupTreatment df_filtered)
        else none

/-- Ordering used by `drug_files_all.sort(key=get_yyyymm_from_filename,
reverse=True)`: newest period first. -/
def drugFileGe (a b : DrugFilePair) : Prop := b.yyyymm ≤ a.yyyymm

instance : DecidableRel drugFileGe := fun a b => Nat.decLe b.yyyymm a.yyyymm

/-- The filename-derived descending sort of the drug archives. -/
def sortFilesDesc (files : List DrugFilePair) : List DrugFilePair :=
  List.insertionSort drugFileGe files

/-- Fuel-indexed keep-first deduplication by patient id (the fuel, always
instantiated with the list length, only makes the recursion structural). -/
def uniqueByKojinFuel : Nat → List TreatmentAgg → List TreatmentAgg
  | 0, _ => []
  | _, [] => []
  | fuel + 1, a :: rest =>
    a :: uniqueByKojinFuel fuel (rest.filter (fun b => !(b.kojin_id == a.kojin_id)))

/-- `pl.concat(treatment_results).unique(subset=["kojin_id"])`.  polars
`unique` with the default `keep="any"` retains one unspecified row per key; it
is modelled as keeping the first row per key in concatenation order (which is
file-processing order, newest archive first). -/
def uniqueByKojin (l : List TreatmentAgg) : List TreatmentAgg :=
  uniqueByKojinFuel l.length l

/-- The deduplicated cross-file treatment aggregate joined against the cohort. -/
def treatmentCombined (patients : List CohortPatient) (files : List DrugFilePair) :
    List TreatmentAgg :=
  uniqueByKojin (((sortFilesDesc files).filterMap
    (processDrugFile (patients.map (fun p => p.kojin_id)) patients)).flatten)

/-- `patients_df.join(combined_treatment, on="kojin_id", how="left")`: each
patient row is paired with every aggregate row carrying its key, or with
`none` when there is no match. -/
def leftJoinAggs (patients : List CohortPatient) (aggs : List TreatmentAgg) :
    List (CohortPatient × Option TreatmentAgg) :=
  (patients.map (fun p =>
    match aggs.filter (fun a => a.kojin_id == p.kojin_id) with
    | [] => [(p, none)]
    | ms => ms.map (fun a => (p, some a)))).flatten

/-- The `pl.when(has_reduction == True).then(1).when(has_abstinence ==
True).then(2).otherwise(3)` expression; a null flag (unmatched left join)
falls through to 3. -/
def treatmentGroupOf : Option TreatmentAgg → Nat
  | some a => if a.has_reduction then 1 else if a.has_abstinence then 2 else 3
  | none => 3

/-- A patient row of the classifier output with its `treatment_group` column. -/
structure ClassifiedPatient where
  kojin_id : Nat
  index_date : String
  treatment_group : Nat
deriving DecidableEq, Repr

/-- `classify_treatment_groups(patients_df, base_dir, params)`: processes the
archive pairs newest-first, deduplicates the concatenated per-file aggregates
by patient id, left joins them onto the cohort and assigns the group; when no
archive pair was processable every patient gets group 3. -/
def classify_treatment_groups (patients : List CohortPatient) (files : List DrugFilePair) :
    List ClassifiedPatient :=
  let treatment_results := (sortFilesDesc files).filterMap
    (processDrugFile (patients.map (fun p => p.kojin_id)) patients)
  if treatment_results.isEmpty then
    patients.map (fun p => { kojin_id := p.kojin_id, index_date := p.index_date, treatment_group := 3 })
  else
    (leftJoinAggs patients (treatmentCombined patients files)).map (fun q =>
      { kojin_id := q.1.kojin_id
        index_date := q.1.index_date
        treatment_group := treatmentGroupOf q.2 })

/-- One row of the ICD10 master table `m_icd10.feather` (the columns this
pipeline touches). -/
structure MasterRow where
  icd10_code : String
  icd10_kbn_code : String
  diseases_code : String
deriving DecidableEq, Repr

/-- Bytewise character-list test behind `str.starts_with`. -/
def listStarts : List Char → List Char → Bool
  | [], _ => true
  | _ :: _, [] => false
  | a :: as, b :: bs => a == b && listStarts as bs

/-- polars `str.starts_with(pre)`. -/
def strStarts (pre s : String) : Bool := listStarts pre.data s.data

/-- `Config.COMORBIDITY_ICD10_CODES["hypertension"]`. -/
def hypertensionIcd10 : List String := ["I10", "I11", "I12", "I13", "I15"]

/-- `Config.COMORBIDITY_ICD10_CODES["diabetes"]`. -/
def diabetesIcd10 : List String := ["E10", "E11", "E12", "E13", "E14"]

/-- `Config.COMORBIDITY_ICD10_CODES["dyslipidemia"]`. -/
def dyslipidemiaIcd10 : List String := ["E78"]

/-- `Config.COMORBIDITY_ICD10_CODES["mental_disorders"]`. -/
def mentalDisordersIcd10 : List String :=
  ["F20", "F21", "F22", "F23", "F24", "F25", "F28", "F29",
   "F30", "F31", "F32", "F33", "F34", "F38", "F39",
   "F40", "F41", "F42", "F43", "F44", "F45", "F48"]

/-- The per-comorbidity code resolution of `get_comorbidities`: for each ICD10
code of the comorbidity, collect the `diseases_code` of every master row whose
`icd10_code` starts with it and whose `icd10_kbn_code` is `"1"`, then
deduplicate (`list(set(...))`). -/
def resolveComorbidityCodes (master : List MasterRow) (icd10List : List String) : List String :=
  ((icd10List.map (fun pre =>
    (master.filter (fun m => strStarts pre m.icd10_code && m.icd10_kbn_code == "1")).map
      (fun m => m.diseases_code))).flatten).dedup

/-- One `receipt_diseases_*.feather` archive as seen by `get_comorbidities`,
with its filesystem modification time (the sort key `os.path.getmtime`). -/
structure ComorbidityFile where
  mtime : Nat
  rows : List DiseaseRow
deriving DecidableEq, Repr

/-- Ordering of `all_disease_files.sort(key=getmtime, reverse=True)`. -/
def comorbFileGe (a b : ComorbidityFile) : Prop := b.mtime ≤ a.mtime

instance : DecidableRel comorbFileGe := fun a b => Nat.decLe b.mtime a.mtime

/-- `all_disease_files.sort(key=getmtime, reverse=True)` followed by `[:3]`:
only the three most recently modified archives are scanned. -/
def comorbidityFilesToProcess (files : List ComorbidityFile) : List ComorbidityFile :=
  (List.insertionSort comorbFileGe files).take 3

/-- The patients carrying one comorbidity according to the scanned archives:
per processed file, rows are filtered to the cohort (skipping the file when
that is empty) and then to the comorbidity's code set, and the surviving
patient ids are collected; the per-file `unique()` lists, the
`aggregated_disease_dfs` concat/unique and the final left join with
`fill_null(False)` together amount to membership in the deduplicated union
computed here. -/
def comorbidityEvidence (master : List MasterRow) (files : List ComorbidityFile)
    (pids : List Nat) (icd10List : List String) : List Nat :=
  let codes := resolveComorbidityCodes master icd10List
  (((comorbidityFilesToProcess files).map (fun f =>
    let df_diseases := f.rows.filter (fun r => pids.contains r.kojin_id)
    if df_diseases.isEmpty then []
    else if codes.isEmpty then []
    else ((df_diseases.filter (fun r => codes.contains r.diseases_code)).map
      (fun r => r.kojin_id)).dedup)).flatten).dedup

/-- The four `has_*` comorbidity flag columns. -/
structure ComorbidityFlags where
  has_hypertension : Bool
  has_diabetes : Bool
  has_dyslipidemia : Bool
  has_mental_disorders : Bool
deriving DecidableEq, Repr

/-- `get_comorbidities(base_dir, patients_df, master_data, params)`: every
patient keeps its row and gains one boolean column per comorbidity, true
exactly when the patient appears in that comorbidity's evidence union over
the scanned archives (initialised `False`, `fill_null(False)` after the
join). -/
def get_comorbidities (master : List MasterRow) (files : List ComorbidityFile)
    (patients : List ClassifiedPatient) : List (ClassifiedPatient × ComorbidityFlags) :=
  let pids := patients.map (fun p => p.kojin_id)
  patients.map (fun p =>
    (p, { has_hypertension := (comorbidityEvidence master files pids hypertensionIcd10).contains p.kojin_id
          has_diabetes := (comorbidityEvidence master files pids diabetesIcd10).contains p.kojin_id
          has_dyslipidemia := (comorbidityEvidence master files pids dyslipidemiaIcd10).contains p.kojin_id
          has_mental_disorders := (comorbidityEvidence master files pids mentalDisordersIcd10).contains p.kojin_id }))

/-- `load_icd10_master(base_dir)`: a missing `m_icd10.feather` is logged and
an empty frame returned. -/
def load_icd10_master (file : Option (List MasterRow)) : List MasterRow :=
  match file with
  | some rows => rows
  | none => []

/-- `get_diseases_codes_for_icd10(icd10_master, icd10_code, icd10_kbn_code)`:
exact match on `(icd10_code, icd10_kbn_code)`. -/
def get_diseases_codes_for_icd10 (master : List MasterRow) (code kbn : String) : List String :=
  (master.filter (fun m => m.icd10_code == code && m.icd10_kbn_code == kbn)).map
    (fun m => m.diseases_code)

/-- Observable outcome of one run of `extract_f10_2_patients.py`'s `main()`:
the process exit status and whether the archive scan was reached. -/
structure MainResult where
  exit_code : Nat
  scanned_archives : Bool
deriving DecidableEq, Repr

/-- Control flow of `main()` in `extract_f10_2_patients.py`.  Every early
bail-out (unreadable master, empty code mapping, no archive files, no
patients found) executes `logger.error(...)` followed by a plain `return`,
so the interpreter exits with status 0 in every case: the script contains no
`sys.exit` call. -/
def extractMain (icd10_file : Option (List MasterRow)) (disease_files : List (List DiseaseRow))
    (params : Params) : MainResult :=
  let icd10_master := load_icd10_master icd10_file
  if icd10_master.isEmpty then { exit_code := 0, scanned_archives := false }
  else
    let codes := get_diseases_codes_for_icd10 icd10_master "F102" "1"
    if codes.isEmpty then { exit_code := 0, scanned_archives := false }
    else if disease_files.isEmpty then { exit_code := 0, scanned_archives := false }
    else { exit_code := 0, scanned_archives := true }

/-- Parameters for the concrete runs below (cap 100: no truncation). -/
def c1params : Params := { n_threads := 4, chunk_size := 100, batch_size := 8 }

/-- A qualifying diagnosis row dated 2014/01/05, before the study period. -/
def c1rowEarly : DiseaseRow :=
  { kojin_id := 1001, receipt_id := 1, receipt_ym := "201401", diseases_code := "8830177",
    sinryo_start_ymd := "2014/01/05", shubyomei_flg := "1", tenki_kbn_code := "0", utagai_flg := "0" }

/-- A qualifying diagnosis row dated 2023/05/01, inside the study period. -/
def c1rowLate : DiseaseRow :=
  { kojin_id := 1002, receipt_id := 2, receipt_ym := "202305", diseases_code := "8830177",
    sinryo_start_ymd := "2023/05/01", shubyomei_flg := "1", tenki_kbn_code := "0", utagai_flg := "0" }

/-- Synthetic patient 1001, archive two, latest qualifying row. -/
def c3r1 : DiseaseRow :=
  { kojin_id := 1001, receipt_id := 3, receipt_ym := "201506", diseases_code := "8830177",
    sinryo_start_ymd := "2015/06/10", shubyomei_flg := "1", tenki_kbn_code := "0", utagai_flg := "0" }

/-- Synthetic patient 1001, archive one: earliest (event date, period) pair. -/
def c3r2 : DiseaseRow :=
  { kojin_id := 1001, receipt_id := 1, receipt_ym := "201403", diseases_code := "8830177",
    sinryo_start_ymd := "2014/09/01", shubyomei_flg := "0", tenki_kbn_code := "1", utagai_flg := "0" }

/-- Synthetic patient 1001: same event date as `c3r2`, later period. -/
def c3r3 : DiseaseRow :=
  { kojin_id := 1001, receipt_id := 2, receipt_ym := "201409", diseases_code := "8831166",
    sinryo_start_ymd := "2014/09/01", shubyomei_flg := "1", tenki_kbn_code := "0", utagai_flg := "1" }

/-- Concatenated rows of the two synthetic archives, out of order. -/
def c3rows : List DiseaseRow := [c3r1, c3r3, c3r2]

/-- The index entry the resolver produces for `c3rows`. -/
def c3entry : IndexEntry :=
  { kojin_id := 1001, index_date := "2014/09/01", first_receipt_id := 1,
    first_receipt_ym := "201403", first_diseases_code := "8830177", first_shubyomei_flg := "0",
    first_tenki_kbn_code := "1", first_utagai_flg := "0", total_f10_2_records := 3 }

/-- Cohort patient with index date 2020/01/10. -/
def c2patient : CohortPatient := { kojin_id := 1001, index_date := "2020/01/10" }

/-- Newer archive pair: an abstinence-class (acamprosate) dispensing dated
2020/03/01, inside the patient's 52-week window. -/
def c2fileNew : DrugFilePair :=
  { yyyymm := 202003,
    drug_rows := [{ kojin_id := 1001, receipt_id := 11, line_no := 1, drug_code := 622243701 }],
    santei := some [{ kojin_id := 1001, receipt_id := 11, line_no := 1, shohou_ymd := "2020/03/01" }] }

/-- Older archive pair: a reduction-class (nalmefene) dispensing dated
2020/01/15, inside the patient's 52-week window. -/
def c2fileOld : DrugFilePair :=
  { yyyymm := 202001,
    drug_rows := [{ kojin_id := 1001, receipt_id := 21, line_no := 1, drug_code := 622607601 }],
    santei := some [{ kojin_id := 1001, receipt_id := 21, line_no := 1, shohou_ymd := "2020/01/15" }] }

/-- A joined dispensing row inside the 52-week window. -/
def c5row : MergedRow :=
  { kojin_id := 1001, drug_code := 622607601, shohou_ymd := "2020/02/01", index_date := "2020/01/10" }

/-- Master table resolving ICD10 family I10 to receipt code 8842818. -/
def c4master : List MasterRow :=
  [{ icd10_code := "I10", icd10_kbn_code := "1", diseases_code := "8842818" }]

/-- A hypertension diagnosis row for patient 1001. -/
def c4match : DiseaseRow :=
  { kojin_id := 1001, receipt_id := 5, receipt_ym := "201501", diseases_code := "8842818",
    sinryo_start_ymd := "2015/01/01", shubyomei_flg := "1", tenki_kbn_code := "0", utagai_flg := "0" }

/-- A diagnosis row for patient 1001 matching no comorbidity code. -/
def c4other : DiseaseRow :=
  { kojin_id := 1001, receipt_id := 6, receipt_ym := "201502", diseases_code := "9999999",
    sinryo_start_ymd := "2015/02/01", shubyomei_flg := "1", tenki_kbn_code := "0", utagai_flg := "0" }

/-- Oldest diagnosis archive: the only one holding the matching row. -/
def c4fOld : ComorbidityFile := { mtime := 10, rows := [c4match] }

/-- Newer diagnosis archive without matching rows. -/
def c4f2 : ComorbidityFile := { mtime := 20, rows := [c4other] }

/-- Newer diagnosis archive without matching rows. -/
def c4f3 : ComorbidityFile := { mtime := 30, rows := [c4other] }

/-- Newest diagnosis archive without matching rows. -/
def c4f4 : ComorbidityFile := { mtime := 40, rows := [c4other] }

/-- Patient 1001 as a classified cohort row. -/
def c4p1 : ClassifiedPatient := { kojin_id := 1001, index_date := "2015/03/01", treatment_group := 3 }

/-- Single-patient cohort for the comorbidity runs. -/
def c4patients : List ClassifiedPatient := [c4p1]

/-- Flags produced when the matching archive is among the scanned ones. -/
def c4flagsHyp : ComorbidityFlags :=
  { has_hypertension := true, has_diabetes := false, has_dyslipidemia := false,
    has_mental_disorders := false }

/-- Index entry whose date 2016/05/01 survives every washout below. -/
def c6keep : IndexEntry :=
  { kojin_id := 1, index_date := "2016/05/01", first_receipt_id := 1, first_receipt_ym := "201605",
    first_diseases_code := "8830177", first_shubyomei_flg := "1", first_tenki_kbn_code := "0",
    first_utagai_flg := "0", total_f10_2_records := 1 }

/-- Index entry whose date 2014/05/01 is inside the 52-week washout span. -/
def c6drop : IndexEntry :=
  { kojin_id := 2, index_date := "2014/05/01", first_receipt_id := 2, first_receipt_ym := "201405",
    first_diseases_code := "8830177", first_shubyomei_flg := "1", first_tenki_kbn_code := "0",
    first_utagai_flg := "0", total_f10_2_records := 1 }

/-- Three matching rows: one more than the cap used in the truncation run. -/
def c7rows : List DiseaseRow :=
  [{ kojin_id := 1, receipt_id := 1, receipt_ym := "201501", diseases_code := "8830177",
     sinryo_start_ymd := "2015/01/01", shubyomei_flg := "1", tenki_kbn_code := "0", utagai_flg := "0" },
   { kojin_id := 2, receipt_id := 2, receipt_ym := "201501", diseases_code := "8830177",
     sinryo_start_ymd := "2015/01/02", shubyomei_flg := "1", tenki_kbn_code := "0", utagai_flg := "0" },
   { kojin_id := 3, receipt_id := 3, receipt_ym := "201501", diseases_code := "8830177",
     sinryo_start_ymd := "2015/01/03", shubyomei_flg := "1", tenki_kbn_code := "0", utagai_flg := "0" }]

/-- Parameters with a per-archive row cap of 2. -/
def c7params : Params := { n_threads := 4, chunk_size := 2, batch_size := 8 }

/-- A master table with no row for ICD10 code F102. -/
def c8masterNoF102 : List MasterRow :=
  [{ icd10_code := "A00", icd10_kbn_code := "1", diseases_code := "1234567" }]

/-- Two-patient cohort with distinct ids. -/
def c9pats : List CohortPatient :=
  [{ kojin_id := 1, index_date := "2020/01/10" }, { kojin_id := 2, index_date := "2020/02/10" }]

/-- C1.  The study-period filter is applied to raw date strings: `index_date`
keeps the schema-documented `YYYY/MM/DD` layout while the configured bounds
use `YYYY-MM-DD`, and since the byte `/` sorts above `-`, every slash-dated
2014 string passes the lower bound and every slash-dated 2023 string fails
the upper bound.  A patient whose only qualifying diagnosis is dated
2014/01/05 — before the study period — is present in the output, and a
patient whose only qualifying diagnosis is dated 2023/05/01 — inside the
study period — is absent, contradicting the claim that the output is exactly
the patients with index date in [2014-04-01, 2023-09-30]. -/
theorem c1_study_period_filter_is_format_broken :
    ((extract_f10_2_patients [[c1rowEarly]] ["8830177"] c1params).1.map
        (fun e => (e.kojin_id, e.index_date)) = [(1001, "2014/01/05")])
    ∧ parseYmdSlash "2014/01/05" = some ⟨2014, 1, 5⟩
    ∧ toDayNumber ⟨2014, 1, 5⟩ < toDayNumber ⟨2014, 4, 1⟩
    ∧ (extract_f10_2_patients [[c1rowLate]] ["8830177"] c1params).1 = []
    ∧ parseYmdSlash "2023/05/01" = some ⟨2023, 5, 1⟩
    ∧ toDayNumber ⟨2014, 4, 1⟩ ≤ toDayNumber ⟨2023, 5, 1⟩
    ∧ toDayNumber ⟨2023, 5, 1⟩ ≤ toDayNumber ⟨2023, 9, 30⟩ := by
  decide

/-- C2.  Cross-archive aggregation is not a boolean OR: the per-file
aggregates are concatenated and deduplicated with `unique(subset=["kojin_id"])`,
which keeps a single per-file row.  A patient with an in-window
abstinence-class dispensing in the newer archive pair and an in-window
reduction-class dispensing in the older archive pair is classified 2
(abstinence), not 1 (reduction), whichever order the files are supplied in;
the surviving aggregate row records only the abstinence evidence although
both events pass the window filter. -/
theorem c2_cross_file_or_aggregation_fails :
    classify_treatment_groups [c2patient] [c2fileOld, c2fileNew] =
      [{ kojin_id := 1001, index_date := "2020/01/10", treatment_group := 2 }]
    ∧ classify_treatment_groups [c2patient] [c2fileNew, c2fileOld] =
      [{ kojin_id := 1001, index_date := "2020/01/10", treatment_group := 2 }]
    ∧ treatmentCombined [c2patient] [c2fileOld, c2fileNew] =
      [{ kojin_id := 1001, has_reduction := false, has_abstinence := true,
         first_drug_date := some 737485 }]
    ∧ windowKeep { kojin_id := 1001, drug_code := 622607601, shohou_ymd := "2020/01/15", index_date := "2020/01/10" } = true
    ∧ windowKeep { kojin_id := 1001, drug_code := 622243701, shohou_ymd := "2020/03/01", index_date := "2020/01/10" } = true
    ∧ (622607601 ∈ reduction_codes ∧ 622243701 ∈ abstinence_codes) := by
  decide

/-- C5.  A joined dispensing row survives the classifier's window filter
exactly when its dispensing date lies in [index date, index date + 364 days]
(52 weeks); a date one day past the upper bound is excluded, and a date one
day before the index date is excluded. -/
theorem c5_window_retention :
    (∀ (rows : List MergedRow) (r : MergedRow) (s i : Date),
        parseYmdSlash r.shohou_ymd = some s → parseYmdSlash r.index_date = some i →
        (r ∈ rows.filter windowKeep ↔
          r ∈ rows ∧ toDayNumber i ≤ toDayNumber s ∧ toDayNumber s ≤ toDayNumber i + 7 * 52))
    ∧ (∀ d : Nat, inTreatmentWindow d (d + 7 * 52 + 1) = false)
    ∧ (∀ d : Nat, 1 ≤ d → inTreatmentWindow d (d - 1) = false) := by
  refine ⟨?_, ?_, ?_⟩
  · intro rows r s i hs hi
    rw [List.mem_filter]
    unfold windowKeep
    rw [hs, hi]
    simp [inTreatmentWindow]
  · intro d
    simp only [inTreatmentWindow, Bool.and_eq_false_iff, decide_eq_false_iff_not]
    omega
  · intro d hd
    simp only [inTreatmentWindow, Bool.and_eq_false_iff, decide_eq_false_iff_not]
    omega

/-- Witness for C5 at a concrete in-window row and concrete boundary days. -/
theorem c5_window_retention_witness :
    (c5row ∈ [c5row].filter windowKeep ↔
      c5row ∈ [c5row] ∧ toDayNumber ⟨2020, 1, 10⟩ ≤ toDayNumber ⟨2020, 2, 1⟩
        ∧ toDayNumber ⟨2020, 2, 1⟩ ≤ toDayNumber ⟨2020, 1, 10⟩ + 7 * 52)
    ∧ inTreatmentWindow 1000 (1000 + 7 * 52 + 1) = false
    ∧ (1 ≤ 1000 ∧ inTreatmentWindow 1000 (1000 - 1) = false) :=
  ⟨c5_window_retention.1 [c5row] c5row ⟨2020, 2, 1⟩ ⟨2020, 1, 10⟩ (by decide) (by decide),
   c5_window_retention.2.1 1000,
   ⟨by decide, c5_window_retention.2.2 1000 (by decide)⟩⟩

/-- C7.  When the per-archive row cap truncates an archive (three matching
rows, cap two), the third matching row is silently dropped: the extraction
emits no warning at all on that run, and across all possible inputs the only
warning the function can emit is the global "no patients found" message,
which names neither an archive nor the cap. -/
theorem c7_cap_truncation_is_silent :
    (extract_f10_2_patients [c7rows] ["8830177"] c7params).2 = []
    ∧ (scanDiseaseFile ["8830177"] c7params.chunk_size c7rows).length = 2
    ∧ (c7rows.filter (fun r => (["8830177"] : List String).contains r.diseases_code)).length = 3
    ∧ (∀ (files : List (List DiseaseRow)) (codes : List String) (ps : Params),
        (extract_f10_2_patients files codes ps).2 = []
        ∨ (extract_f10_2_patients files codes ps).2 = [WARN_NO_F10_2_PATIENTS]) := by
  refine ⟨by decide, by decide, by decide, ?_⟩
  intro files codes ps
  unfold extract_f10_2_patients
  by_cases h : ((files.map (scanDiseaseFile codes ps.chunk_size)).filter
      (fun r => !r.isEmpty)).isEmpty
  · right
    simp [h]
  · left
    simp [h]

/-- C8.  Every fatal configuration error in `main()` — unreadable or missing
ICD10 master, empty F10.2 code mapping, no archives — skips the archive scan
but ends the process with exit status 0 (`logger.error` followed by a plain
`return`; the script never calls `sys.exit`), so the pipeline runner's
`returncode == 0` check treats the failed step as successful. -/
theorem c8_fatal_errors_exit_with_status_zero :
    (∀ (f : Option (List MasterRow)) (d : List (List DiseaseRow)) (ps : Params),
        (extractMain f d ps).exit_code = 0)
    ∧ extractMain none [c7rows] c1params = { exit_code := 0, scanned_archives := false }
    ∧ extractMain (some c8masterNoF102) [c7rows] c1params =
        { exit_code := 0, scanned_archives := false } := by
  refine ⟨?_, by decide, by decide⟩
  intro f d ps
  cases h1 : (load_icd10_master f).isEmpty <;>
    cases h2 : (get_diseases_codes_for_icd10 (load_icd10_master f) "F102" "1").isEmpty <;>
      cases h3 : d.isEmpty <;>
        simp [extractMain, h1, h2, h3]

/-- When the strict date parse succeeds, the washout filter output is the
plain row filter on the washout predicate (helper for C6 and C10). -/
theorem washout_eq_filter {patients : List IndexEntry} {w : Nat} {out : List IndexEntry}
    (h : apply_washout_criteria patients w = some out) :
    out = patients.filter (fun p =>
      match parseYmdSlash p.index_date with
      | some dt => washoutKeep w dt
      | none => false) := by
  unfold apply_washout_criteria at h
  by_cases hall : (patients.map (fun p => (p, parseYmdSlash p.index_date))).all
      (fun q => q.2.isSome)
  · rw [if_pos hall, Option.some.injEq] at h
    have hfst : (Prod.fst ∘ fun p : IndexEntry => (p, parseYmdSlash p.index_date)) =
        fun p : IndexEntry => p := rfl
    rw [← h, List.filter_map, List.map_map, hfst, List.map_id']
    rfl
  · rw [if_neg hall] at h
    exact absurd h (by simp)

/-- C6.  With every index date parseable, a patient survives
`apply_washout_criteria` exactly when its index date is at least the study
start 2014-04-01 plus `7 * washout_weeks` days, and `save_results` runs the
filter once per configured washout length (52, 26, 156 weeks) plus one
unfiltered cohort, each time on the same full input set. -/
theorem c6_washout_cohorts {patients out : List IndexEntry} {w : Nat}
    (h : apply_washout_criteria patients w = some out) :
    (∀ p, p ∈ out ↔ p ∈ patients ∧ ∃ dt, parseYmdSlash p.index_date = some dt ∧
        studyStartDay + 7 * w ≤ toDayNumber dt)
    ∧ save_results patients =
        (apply_washout_criteria patients 52, apply_washout_criteria patients 26,
         apply_washout_criteria patients 156, patients) := by
  refine ⟨fun p => ?_, rfl⟩
  rw [washout_eq_filter h, List.mem_filter]
  constructor
  · rintro ⟨hp, hpred⟩
    refine ⟨hp, ?_⟩
    cases hparse : parseYmdSlash p.index_date with
    | none => rw [hparse] at hpred; exact absurd hpred (by simp)
    | some dt =>
      rw [hparse] at hpred
      exact ⟨dt, rfl, by simpa [washoutKeep] using hpred⟩
  · rintro ⟨hp, dt, hparse, hle⟩
    exact ⟨hp, by simp [hparse, washoutKeep, hle]⟩

/-- Witness for C6: a concrete two-patient run of the 52-week washout. -/
theorem c6_washout_cohorts_witness :
    apply_washout_criteria [c6keep, c6drop] 52 = some [c6keep]
    ∧ ((∀ p, p ∈ [c6keep] ↔ p ∈ [c6keep, c6drop] ∧ ∃ dt, parseYmdSlash p.index_date = some dt ∧
          studyStartDay + 7 * 52 ≤ toDayNumber dt)
      ∧ save_results [c6keep, c6drop] =
          (apply_washout_criteria [c6keep, c6drop] 52, apply_washout_criteria [c6keep, c6drop] 26,
           apply_washout_criteria [c6keep, c6drop] 156, [c6keep, c6drop])) :=
  ⟨by decide, c6_washout_cohorts (by decide)⟩

/-- C10.  A successful washout run returns a sublist of the input frame: the
retained rows are input rows with every field unchanged, and the parsed-date
helper column is gone, so the output schema is the input schema
(`IndexEntry`). -/
theorem c10_washout_is_pure_row_filter {patients out : List IndexEntry} {w : Nat}
    (h : apply_washout_criteria patients w = some out) :
    out.Sublist patients := by
  rw [washout_eq_filter h]
  exact List.filter_sublist patients

/-- Witness for C10 at the concrete two-patient 52-week run. -/
theorem c10_washout_is_pure_row_filter_witness :
    apply_washout_criteria [c6keep, c6drop] 52 = some [c6keep]
    ∧ List.Sublist [c6keep] [c6keep, c6drop] :=
  ⟨by decide, @c10_washout_is_pure_row_filter [c6keep, c6drop] [c6keep] 52 (by decide)⟩

/-- Rows of the deduplicated aggregate all come from the input list. -/
theorem uniqueByKojinFuel_subset :
    ∀ (fuel : Nat) (l : List TreatmentAgg) (a : TreatmentAgg),
      a ∈ uniqueByKojinFuel fuel l → a ∈ l := by
  intro fuel
  induction fuel with
  | zero =>
    intro l a h
    exact absurd h (by cases l <;> simp [uniqueByKojinFuel])
  | succ n ih =>
    intro l a h
    cases l with
    | nil => exact absurd h (by simp [uniqueByKojinFuel])
    | cons b rest =>
      simp only [uniqueByKojinFuel, List.mem_cons] at h
      rcases h with h | h
      · exact h ▸ List.mem_cons_self b rest
      · exact List.mem_cons_of_mem b (List.mem_of_mem_filter (ih _ a h))

/-- After `unique(subset=["kojin_id"])` the patient ids are pairwise distinct. -/
theorem uniqueByKojinFuel_keys_nodup :
    ∀ (fuel : Nat) (l : List TreatmentAgg),
      ((uniqueByKojinFuel fuel l).map (fun a => a.kojin_id)).Nodup := by
  intro fuel
  induction fuel with
  | zero =>
    intro l
    cases l <;> simp [uniqueByKojinFuel]
  | succ n ih =>
    intro l
    cases l with
    | nil => simp [uniqueByKojinFuel]
    | cons b rest =>
      simp only [uniqueByKojinFuel, List.map_cons, List.nodup_cons]
      refine ⟨?_, ih _⟩
      intro hmem
      rw [List.mem_map] at hmem
      obtain ⟨c, hc, hck⟩ := hmem
      have hcf := uniqueByKojinFuel_subset n _ c hc
      have hpred := List.of_mem_filter hcf
      simp [hck] at hpred

/-- Key distinctness of the combined treatment aggregate. -/
theorem uniqueByKojin_keys_nodup (l : List TreatmentAgg) :
    ((uniqueByKojin l).map (fun a => a.kojin_id)).Nodup :=
  uniqueByKojinFuel_keys_nodup l.length l

/-- Filtering a key-distinct aggregate list by one key yields zero or one row. -/
theorem filter_key_of_nodup (l : List TreatmentAgg)
    (h : (l.map (fun a => a.kojin_id)).Nodup) (k : Nat) :
    l.filter (fun a => a.kojin_id == k) = []
    ∨ ∃ a, l.filter (fun a => a.kojin_id == k) = [a] := by
  induction l with
  | nil => left; rfl
  | cons b rest ih =>
    rw [List.map_cons, List.nodup_cons] at h
    obtain ⟨hb, hrest⟩ := h
    rw [List.filter_cons]
    by_cases hbk : (b.kojin_id == k) = true
    · rw [if_pos hbk]
      right
      refine ⟨b, ?_⟩
      have hnil : rest.filter (fun a => a.kojin_id == k) = [] := by
        rw [List.filter_eq_nil_iff]
        intro c hc hck
        apply hb
        rw [List.mem_map]
        refine ⟨c, hc, ?_⟩
        have h1 : c.kojin_id = k := by simpa using hck
        have h2 : b.kojin_id = k := by simpa using hbk
        rw [h1, h2]
      rw [hnil]
    · rw [if_neg hbk]
      exact ih hrest

/-- The left join against a key-distinct aggregate keeps exactly the input
patient rows, in order. -/
theorem leftJoinAggs_fst (patients : List CohortPatient) (aggs : List TreatmentAgg)
    (h : (aggs.map (fun a => a.kojin_id)).Nodup) :
    (leftJoinAggs patients aggs).map Prod.fst = patients := by
  induction patients with
  | nil => rfl
  | cons p ps ih =>
    have ih' := ih
    unfold leftJoinAggs at ih' ⊢
    rw [List.map_cons, List.flatten_cons, List.map_append, ih']
    rcases filter_key_of_nodup aggs h p.kojin_id with hnil | ⟨a, ha⟩
    · rw [hnil]
      rfl
    · rw [ha]
      rfl

/-- The classifier's group expression only produces 1, 2 or 3. -/
theorem treatmentGroupOf_cases (o : Option TreatmentAgg) :
    treatmentGroupOf o = 1 ∨ treatmentGroupOf o = 2 ∨ treatmentGroupOf o = 3 := by
  cases o with
  | none => right; right; rfl
  | some a =>
    by_cases h1 : a.has_reduction = true
    · left; simp [treatmentGroupOf, h1]
    · by_cases h2 : a.has_abstinence = true
      · right; left; simp [treatmentGroupOf, h1, h2]
      · right; right; simp [treatmentGroupOf, h1, h2]

/-- C9.  For a cohort with distinct patient ids, `classify_treatment_groups`
returns exactly one row per input patient in input order (the left join
against the key-deduplicated aggregate can neither drop nor duplicate), every
output row's `treatment_group` is 1, 2 or 3, and with no archive pair at all
every patient is assigned 3. -/
theorem c9_classifier_is_patient_preserving (patients : List CohortPatient)
    (files : List DrugFilePair)
    (hids : (patients.map (fun p => p.kojin_id)).Nodup) :
    ((classify_treatment_groups patients files).map (fun c => c.kojin_id)
      = patients.map (fun p => p.kojin_id))
    ∧ (∀ c ∈ classify_treatment_groups patients files,
        c.treatment_group = 1 ∨ c.treatment_group = 2 ∨ c.treatment_group = 3)
    ∧ classify_treatment_groups patients [] =
        patients.map (fun p =>
          { kojin_id := p.kojin_id, index_date := p.index_date, treatment_group := 3 }) := by
  refine ⟨?_, ?_, rfl⟩
  · simp only [classify_treatment_groups]
    by_cases hres : ((sortFilesDesc files).filterMap
        (processDrugFile (patients.map (fun p => p.kojin_id)) patients)).isEmpty = true
    · rw [if_pos hres, List.map_map]
      rfl
    · rw [if_neg hres, List.map_map]
      have hjoin := leftJoinAggs_fst patients (treatmentCombined patients files)
        (uniqueByKojin_keys_nodup _)
      rw [show ((fun c : ClassifiedPatient => c.kojin_id) ∘ fun q : CohortPatient × Option TreatmentAgg =>
            ({ kojin_id := q.1.kojin_id, index_date := q.1.index_date,
               treatment_group := treatmentGroupOf q.2 } : ClassifiedPatient))
          = (fun p : CohortPatient => p.kojin_id) ∘ Prod.fst from rfl]
      rw [← List.map_map, hjoin]
  · intro c hc
    simp only [classify_treatment_groups] at hc
    by_cases hres : ((sortFilesDesc files).filterMap
        (processDrugFile (patients.map (fun p => p.kojin_id)) patients)).isEmpty = true
    · rw [if_pos hres, List.mem_map] at hc
      obtain ⟨p, hp, rfl⟩ := hc
      right; right; rfl
    · rw [if_neg hres, List.mem_map] at hc
      obtain ⟨q, hq, rfl⟩ := hc
      exact treatmentGroupOf_cases q.2

/-- Witness for C9: a two-patient cohort against the two-archive drug data. -/
theorem c9_classifier_is_patient_preserving_witness :
    (c9pats.map (fun p => p.kojin_id)).Nodup
    ∧ (((classify_treatment_groups c9pats [c2fileOld, c2fileNew]).map (fun c => c.kojin_id)
        = c9pats.map (fun p => p.kojin_id))
      ∧ (∀ c ∈ classify_treatment_groups c9pats [c2fileOld, c2fileNew],
          c.treatment_group = 1 ∨ c.treatment_group = 2 ∨ c.treatment_group = 3)
      ∧ classify_treatment_groups c9pats [] =
          c9pats.map (fun p =>
            { kojin_id := p.kojin_id, index_date := p.index_date, treatment_group := 3 })) :=
  ⟨by decide, c9_classifier_is_patient_preserving c9pats [c2fileOld, c2fileNew] (by decide)⟩

/-- Bool membership bridge for the `is_in` filters. -/
theorem contains_iff_mem {α : Type} [BEq α] [LawfulBEq α] (l : List α) (a : α) :
    l.contains a = true ↔ a ∈ l := by
  simp [List.contains]

/-- C4 counterexample.  Four diagnosis archives exist; the only row matching a
resolved hypertension code (I10 → 8842818) for patient 1001 sits in the
oldest archive.  The archive is present, the row matches, yet the patient's
hypertension flag is false, because `get_comorbidities` scans only the three
most recently modified archives. -/
theorem c4_fourth_archive_counterexample :
    (get_comorbidities c4master [c4fOld, c4f2, c4f3, c4f4] c4patients).map
        (fun q => q.2.has_hypertension) = [false]
    ∧ c4fOld ∈ [c4fOld, c4f2, c4f3, c4f4]
    ∧ c4match ∈ c4fOld.rows
    ∧ c4match.kojin_id = c4p1.kojin_id
    ∧ (resolveComorbidityCodes c4master hypertensionIcd10).contains c4match.diseases_code = true
    ∧ (get_comorbidities c4master [c4fOld, c4f2, c4f3, c4f4] c4patients).map
        (fun q => q.1.kojin_id) = [c4p1.kojin_id] := by
  decide

/-- A patient id is in a comorbidity's evidence union exactly when one of the
scanned (three newest) archives holds a row of that patient whose code
resolves for the comorbidity. -/
theorem comorbidityEvidence_mem (master : List MasterRow) (files : List ComorbidityFile)
    (pids : List Nat) (icd10List : List String) (k : Nat) (hk : k ∈ pids) :
    (comorbidityEvidence master files pids icd10List).contains k = true ↔
      ∃ f ∈ comorbidityFilesToProcess files, ∃ r ∈ f.rows, r.kojin_id = k ∧
        (resolveComorbidityCodes master icd10List).contains r.diseases_code = true := by
  rw [contains_iff_mem]
  unfold comorbidityEvidence
  rw [List.mem_dedup, List.mem_flatten]
  constructor
  · rintro ⟨chunk, hchunk, hkc⟩
    rw [List.mem_map] at hchunk
    obtain ⟨f, hf, rfl⟩ := hchunk
    by_cases h1 : (f.rows.filter (fun r => pids.contains r.kojin_id)).isEmpty = true
    · rw [if_pos h1] at hkc
      cases hkc
    · rw [if_neg h1] at hkc
      by_cases h2 : (resolveComorbidityCodes master icd10List).isEmpty = true
      · rw [if_pos h2] at hkc
        cases hkc
      · rw [if_neg h2] at hkc
        rw [List.mem_dedup, List.mem_map] at hkc
        obtain ⟨r, hr, hrk⟩ := hkc
        rw [List.mem_filter] at hr
        obtain ⟨hr1, hr2⟩ := hr
        rw [List.mem_filter] at hr1
        exact ⟨f, hf, r, hr1.1, hrk, hr2⟩
  · rintro ⟨f, hf, r, hr, hrk, hrc⟩
    refine ⟨_, List.mem_map.mpr ⟨f, hf, rfl⟩, ?_⟩
    have hrdf : r ∈ f.rows.filter (fun r => pids.contains r.kojin_id) := by
      rw [List.mem_filter]
      refine ⟨hr, ?_⟩
      rw [contains_iff_mem]
      exact hrk ▸ hk
    have h1 : ¬ (f.rows.filter (fun r => pids.contains r.kojin_id)).isEmpty = true := by
      rw [List.isEmpty_iff]
      exact List.ne_nil_of_mem hrdf
    have h2 : ¬ (resolveComorbidityCodes master icd10List).isEmpty = true := by
      rw [List.isEmpty_iff]
      exact List.ne_nil_of_mem ((contains_iff_mem _ _).mp hrc)
    rw [if_neg h1, if_neg h2, List.mem_dedup, List.mem_map]
    exact ⟨r, List.mem_filter.mpr ⟨hrdf, hrc⟩, hrk⟩

/-- C4 amended.  For every patient row of `get_comorbidities`, each of the
four comorbidity flags is true exactly when some row of that patient in one
of the three most recently modified diagnosis archives (the only archives
scanned) carries a code resolved for that comorbidity by ICD10-family lookup;
in particular the aggregate over the scanned archives is a boolean OR, and a
patient with no matching row anywhere gets all-false flags, not an error. -/
theorem c4_comorbidity_flags_amended (master : List MasterRow) (files : List ComorbidityFile)
    (patients : List ClassifiedPatient) (p : ClassifiedPatient) (flags : ComorbidityFlags)
    (h : (p, flags) ∈ get_comorbidities master files patients) :
    (flags.has_hypertension = true ↔ ∃ f ∈ comorbidityFilesToProcess files, ∃ r ∈ f.rows,
        r.kojin_id = p.kojin_id ∧
        (resolveComorbidityCodes master hypertensionIcd10).contains r.diseases_code = true)
    ∧ (flags.has_diabetes = true ↔ ∃ f ∈ comorbidityFilesToProcess files, ∃ r ∈ f.rows,
        r.kojin_id = p.kojin_id ∧
        (resolveComorbidityCodes master diabetesIcd10).contains r.diseases_code = true)
    ∧ (flags.has_dyslipidemia = true ↔ ∃ f ∈ comorbidityFilesToProcess files, ∃ r ∈ f.rows,
        r.kojin_id = p.kojin_id ∧
        (resolveComorbidityCodes master dyslipidemiaIcd10).contains r.diseases_code = true)
    ∧ (flags.has_mental_disorders = true ↔ ∃ f ∈ comorbidityFilesToProcess files, ∃ r ∈ f.rows,
        r.kojin_id = p.kojin_id ∧
        (resolveComorbidityCodes master mentalDisordersIcd10).contains r.diseases_code = true) := by
  simp only [get_comorbidities, List.mem_map] at h
  obtain ⟨q, hq, heq⟩ := h
  rw [Prod.mk.injEq] at heq
  obtain ⟨hqp, hflags⟩ := heq
  subst hqp
  have hkp : q.kojin_id ∈ patients.map (fun p => p.kojin_id) :=
    List.mem_map.mpr ⟨q, hq, rfl⟩
  refine ⟨?_, ?_, ?_, ?_⟩ <;> rw [← hflags]
  · exact comorbidityEvidence_mem master files _ hypertensionIcd10 q.kojin_id hkp
  · exact comorbidityEvidence_mem master files _ diabetesIcd10 q.kojin_id hkp
  · exact comorbidityEvidence_mem master files _ dyslipidemiaIcd10 q.kojin_id hkp
  · exact comorbidityEvidence_mem master files _ mentalDisordersIcd10 q.kojin_id hkp

/-- Witness for the amended C4: with the matching archive among the scanned
ones the hypertension flag is true and the other three flags are false. -/
theorem c4_comorbidity_flags_amended_witness :
    (c4p1, c4flagsHyp) ∈ get_comorbidities c4master [c4fOld] c4patients
    ∧ ((c4flagsHyp.has_hypertension = true ↔ ∃ f ∈ comorbidityFilesToProcess [c4fOld], ∃ r ∈ f.rows,
          r.kojin_id = c4p1.kojin_id ∧
          (resolveComorbidityCodes c4master hypertensionIcd10).contains r.diseases_code = true)
      ∧ (c4flagsHyp.has_diabetes = true ↔ ∃ f ∈ comorbidityFilesToProcess [c4fOld], ∃ r ∈ f.rows,
          r.kojin_id = c4p1.kojin_id ∧
          (resolveComorbidityCodes c4master diabetesIcd10).contains r.diseases_code = true)
      ∧ (c4flagsHyp.has_dyslipidemia = true ↔ ∃ f ∈ comorbidityFilesToProcess [c4fOld], ∃ r ∈ f.rows,
          r.kojin_id = c4p1.kojin_id ∧
          (resolveComorbidityCodes c4master dyslipidemiaIcd10).contains r.diseases_code = true)
      ∧ (c4flagsHyp.has_mental_disorders = true ↔ ∃ f ∈ comorbidityFilesToProcess [c4fOld], ∃ r ∈ f.rows,
          r.kojin_id = c4p1.kojin_id ∧
          (resolveComorbidityCodes c4master mentalDisordersIcd10).contains r.diseases_code = true)) :=
  ⟨by decide, c4_comorbidity_flags_amended c4master [c4fOld] c4patients c4p1 c4flagsHyp (by decide)⟩

/-- On rows of one patient, the three-column sort order reduces to the
lexicographic (event date, reporting period) pair order. -/
theorem rowLe_pair_of_same_kojin {a b : DiseaseRow} (hk : a.kojin_id = b.kojin_id)
    (h : rowLe a b) :
    toLex (a.sinryo_start_ymd.data, a.receipt_ym.data)
      ≤ toLex (b.sinryo_start_ymd.data, b.receipt_ym.data) := by
  unfold rowLe rowKeyOf at h
  rcases (Prod.Lex.le_iff _ _).mp h with hlt | ⟨_, hle⟩
  · rw [hk] at hlt
    exact absurd hlt (lt_irrefl _)
  · exact hle

/-- C3.  Every entry of the index-date table comes from a single row `r` of
the patient's qualifying rows: the index date and all provenance fields are
the fields of `r`, the (event date, reporting period) pair of `r` is
lexicographically minimal among all of the patient's rows across the
concatenated archives (minimality established by the one three-column sort),
and the record count is the patient's total number of qualifying rows. -/
theorem c3_index_date_resolution (rows : List DiseaseRow) (e : IndexEntry)
    (he : e ∈ indexDates rows) :
    ∃ r, r ∈ rows ∧ r.kojin_id = e.kojin_id
      ∧ e.index_date = r.sinryo_start_ymd
      ∧ e.first_receipt_id = r.receipt_id
      ∧ e.first_receipt_ym = r.receipt_ym
      ∧ e.first_diseases_code = r.diseases_code
      ∧ e.first_shubyomei_flg = r.shubyomei_flg
      ∧ e.first_tenki_kbn_code = r.tenki_kbn_code
      ∧ e.first_utagai_flg = r.utagai_flg
      ∧ (∀ r' ∈ rows, r'.kojin_id = e.kojin_id →
          toLex (r.sinryo_start_ymd.data, r.receipt_ym.data)
            ≤ toLex (r'.sinryo_start_ymd.data, r'.receipt_ym.data))
      ∧ e.total_f10_2_records =
          (rows.filter (fun r' => r'.kojin_id == e.kojin_id)).length := by
  unfold indexDates at he
  rw [List.mem_filterMap] at he
  obtain ⟨pid, hpid, hsome⟩ := he
  unfold indexEntryFor at hsome
  cases hg : extractGroup rows pid with
  | nil =>
    rw [hg] at hsome
    cases hsome
  | cons r rest =>
    rw [hg, Option.some.injEq] at hsome
    subst hsome
    have hrg : r ∈ extractGroup rows pid := by
      rw [hg]
      exact List.mem_cons_self r rest
    have hrf := hrg
    unfold extractGroup at hrf
    rw [List.mem_filter] at hrf
    obtain ⟨hrs, hrk⟩ := hrf
    have hrrows : r ∈ rows := (List.mem_insertionSort rowLe).mp hrs
    have hrkeq : r.kojin_id = pid := by simpa using hrk
    have hsorted : (sortDiseaseRows rows).Pairwise rowLe :=
      List.sorted_insertionSort rowLe rows
    have hgs : (extractGroup rows pid).Pairwise rowLe := List.Pairwise.filter _ hsorted
    rw [hg] at hgs
    have hperm : List.Perm (extractGroup rows pid)
        (rows.filter (fun r' => r'.kojin_id == pid)) :=
      (List.perm_insertionSort rowLe rows).filter _
    rw [hg] at hperm
    refine ⟨r, hrrows, hrkeq, rfl, rfl, rfl, rfl, rfl, rfl, rfl, ?_, ?_⟩
    · intro r' hr' hk'
      have hk'' : r'.kojin_id = pid := by simpa using hk'
      have hr'g : r' ∈ extractGroup rows pid := by
        unfold extractGroup
        rw [List.mem_filter]
        exact ⟨(List.mem_insertionSort rowLe).mpr hr', by simpa using hk''⟩
      rw [hg] at hr'g
      rcases List.mem_cons.mp hr'g with hcase | hcase
      · rw [hcase]
      · exact rowLe_pair_of_same_kojin (hrkeq.trans hk''.symm)
          ((List.pairwise_cons.mp hgs).1 r' hcase)
    · exact hperm.length_eq

/-- Witness for C3: a synthetic patient with three out-of-order qualifying
rows across two archives, including an event-date tie broken by the earlier
reporting period. -/
theorem c3_index_date_resolution_witness :
    c3entry ∈ indexDates c3rows
    ∧ ∃ r, r ∈ c3rows ∧ r.kojin_id = c3entry.kojin_id
      ∧ c3entry.index_date = r.sinryo_start_ymd
      ∧ c3entry.first_receipt_id = r.receipt_id
      ∧ c3entry.first_receipt_ym = r.receipt_ym
      ∧ c3entry.first_diseases_code = r.diseases_code
      ∧ c3entry.first_shubyomei_flg = r.shubyomei_flg
      ∧ c3entry.first_tenki_kbn_code = r.tenki_kbn_code
      ∧ c3entry.first_utagai_flg = r.utagai_flg
      ∧ (∀ r' ∈ c3rows, r'.kojin_id = c3entry.kojin_id →
          toLex (r.sinryo_start_ymd.data, r.receipt_ym.data)
            ≤ toLex (r'.sinryo_start_ymd.data, r'.receipt_ym.data))
      ∧ c3entry.total_f10_2_records =
          (c3rows.filter (fun r' => r'.kojin_id == c3entry.kojin_id)).length :=
  ⟨by decide, c3_index_date_resolution c3rows c3entry (by decide)⟩
